import Mathlib

/-!
Shallow embedding of the authentication and post-handling logic of
src/server.js (an Express REST backend for soccer-team registration and
posts), together with models of the external Secret Hasher (the bcryptjs
library) and Token Service (the jsonwebtoken library) components, which
are not part of src/ and are therefore modelled from the design spec.
The in-memory document store is modelled as a Lean list of records.
-/

namespace Server

/-- Post record as the handlers use it: team is the owning team's id (a
mongoose ObjectId rendered by toString(), modelled as a String), date the
creation timestamp that the descending sort of GET /api/posts orders by. -/
structure Post where
  id : String
  team : String
  title : String
  body : String
  date : Nat
deriving DecidableEq, Repr

/-- Modelled from the spec: the Secret Hasher (spec section 4.1) is the
bcryptjs library, which is not part of src/; src/server.js lines 76-77 and
130-135 only call it. A hashed value embeds the salt it was produced with
next to the one-way digest; the model keeps the salted preimage as the
digest, which suffices to state the hash/verify round-trip properties. -/
structure HashedValue where
  salt : String
  digest : String
deriving DecidableEq, Repr

namespace bcrypt

/-- Modelled from the spec: hash combines a fresh random salt (the result
of bcrypt.genSalt, passed here explicitly as the salt argument) with the
secret into a value that embeds the salt. -/
def hash (secret salt : String) : HashedValue :=
  ⟨salt, salt ++ secret⟩

/-- Modelled from the spec: verify (bcrypt.compare) recomputes the digest
using the salt embedded in the hashed value and compares; it returns false
on mismatch rather than failing. -/
def compare (secret : String) (h : HashedValue) : Bool :=
  h.digest == h.salt ++ secret

end bcrypt

/-- Team record persisted by the Credential Store: players stores the
bcrypt hash of the submitted players string, since the registration
handler hashes the player count as if it were a password. -/
structure Team where
  id : String
  name : String
  city : String
  players : HashedValue
deriving DecidableEq, Repr

/-- Responses a handler can send: res.status(s).json with a single msg
object, res.status(s).json with an errors list, res.json of a post or a
post list (status 200), or res.status(500).send of plain text. -/
inductive HttpResult where
  | msgJson (status : Nat) (msg : String)
  | errorsJson (status : Nat) (msgs : List String)
  | postJson (post : Post)
  | postsJson (posts : List Post)
  | serverError (text : String)
deriving DecidableEq, Repr

/-- JavaScript runtime errors thrown inside the handler bodies and caught
by their try/catch blocks. -/
inductive JsError where
  | referenceError (ident : String)
deriving DecidableEq, Repr

/-- Lookup Post.findById performs, over the in-memory list of posts. -/
def findPost (db : List Post) (pid : String) : Option Post :=
  db.find? (fun p => p.id == pid)

/-- DELETE /api/posts/:id handler (src/server.js lines 250-271): looks the
post up by id, answers 404 when it is absent, answers 401 when the
authenticated team id (attached by the auth middleware as req.team.id)
differs from the post's owner post.team.toString(), and otherwise removes
the post document and confirms with msg 'Post removed'. -/
def deletePostHandler (db : List Post) (reqTeamId pid : String) :
    HttpResult × List Post :=
  match findPost db pid with
  | none => (.msgJson 404 "Post not found", db)
  | some post =>
    if post.team ≠ reqTeamId then
      (.msgJson 401 "team not authorized", db)
    else
      (.msgJson 200 "Post removed", db.eraseP (fun p => p.id == pid))

/-- JavaScript x || y for an optional string request field: an absent
field (undefined) and the empty string are both falsy. -/
def jsOr (x : Option String) (y : String) : String :=
  match x with
  | none => y
  | some s => if s = "" then y else s

/-- PUT /api/posts/:id handler (src/server.js lines 277-303): 404 when
the post id does not resolve, 401 with msg 'User not authorized' when the
requester does not own the post, otherwise overwrites title and body with
title || post.title and body || post.body, saves the document and echoes
the updated post. -/
def updatePostHandler (db : List Post) (reqTeamId pid : String)
    (title body : Option String) : HttpResult × List Post :=
  match findPost db pid with
  | none => (.msgJson 404 "Post not found", db)
  | some post =>
    if post.team ≠ reqTeamId then
      (.msgJson 401 "User not authorized", db)
    else
      let post' : Post :=
        ⟨post.id, post.team, jsOr title post.title, jsOr body post.body, post.date⟩
      (.postJson post', db.map (fun p => if p.id == pid then post' else p))

/-- Sort performed by Post.find().sort(date: -1): all stored posts,
newest first. -/
def sortByDateDesc (db : List Post) : List Post :=
  db.mergeSort (fun a b => decide (b.date ≤ a.date))

/-- GET /api/posts handler (src/server.js lines 215-224): returns every
stored post sorted by date descending; the authenticated team id is
attached by the auth middleware but never consulted. -/
def getPostsHandler (db : List Post) (reqTeamId : String) : HttpResult :=
  .postsJson (sortByDateDesc db)

/-- GET /api/posts/:id handler (src/server.js lines 230-244): 404 when
the post id does not resolve, otherwise the post itself, with no
ownership comparison anywhere in the handler. -/
def getPostHandler (db : List Post) (reqTeamId pid : String) : HttpResult :=
  match findPost db pid with
  | none => .msgJson 404 "Post not found"
  | some post => .postJson post

/-- Validator chain of POST /api/team (src/server.js lines 43-52), by the
express-validator and validator.js semantics of the chain methods that
exist: the name check not().isEmpty() reports its message when the name
is empty, and the players check isLength with min 13 tests the length of
the string form of the field (express-validator coerces a JSON number to
its decimal string), not its numeric value, even though its own error
message says the intent is a numeric minimum of 13 players. The city
check calls isCity(), which is not a method of an express-validator
chain, so evaluating that route definition throws TypeError when the
module is loaded; it contributes no validation semantics and the model
covers the two well-formed chains. -/
def teamValidationErrors (name players : String) : List String :=
  (if name = "" then ["Please enter your name of soccer team"] else []) ++
  (if players.length < 13 then
    ["Please enter number of players, must be at least 13"] else [])

/-- Body of the POST /api/team handler after validation (src/server.js
lines 57-87). Its first statement, line 61, is
let team = await team.findOne(with the submitted name): the block-scoped
binding team introduced by this very let shadows the module-scope model
import, so the initializer reads team inside its own temporal dead zone
and throws ReferenceError on every execution, before any store lookup,
duplicate-name check, hashing, save or token issuance can happen. The
unreachable remainder of the body also reads the undefined identifier
user at lines 77 and 83. -/
def registerTeamBody (db : List Team) (name city players : String) :
    Except JsError (HttpResult × List Team) :=
  Except.error (JsError.referenceError "team")

/-- POST /api/team handler (src/server.js lines 41-89): a non-empty
validation result answers 422 with the error list; otherwise the body
runs, and the ReferenceError it throws is caught by the catch block,
which answers 500 'Server error' and leaves the store unchanged. -/
def registerTeamHandler (db : List Team) (name city players : String) :
    HttpResult × List Team :=
  if teamValidationErrors name players ≠ [] then
    (.errorsJson 422 (teamValidationErrors name players), db)
  else
    match registerTeamBody db name city players with
    | Except.ok r => r
    | Except.error _ => (.serverError "Server error", db)

/-- Body of the POST /api/registration (login) handler (src/server.js
lines 118-142). Line 122 has the same temporal-dead-zone bug as the
registration body: let team = await team.findOne(with the submitted name)
reads its own uninitialized team binding and throws ReferenceError on
every execution, so neither the 400 'Invalid team name' branch, nor the
bcrypt.compare players check with its 400 'Invalid number of players'
branch, nor token issuance is ever reached. Line 130 of the unreachable
remainder also reads the undefined identifier user. -/
def loginBody (db : List Team) (name players : String) :
    Except JsError HttpResult :=
  Except.error (JsError.referenceError "team")

/-- POST /api/registration handler (src/server.js lines 108-144). Its
validator chain calls NotValid(), which is not a method of an
express-validator chain (TypeError when the module is loaded); the only
well-formed check, exists() on the name, passes whenever the field is
present, as in every request modelled here, so the model goes straight to
the body, whose thrown ReferenceError the catch block maps to the 500
response. -/
def loginHandler (db : List Team) (name players : String) : HttpResult :=
  match loginBody db name players with
  | Except.ok r => r
  | Except.error _ => HttpResult.serverError "Server error"

/-- Identity embedded in token payloads: the payload.team object with its
single id field. -/
structure Identity where
  id : String
deriving DecidableEq, Repr

/-- Verification failures of the Token Service (spec section 4.2). -/
inductive TokenError where
  | invalidSignature
  | expired
deriving DecidableEq, Repr

/-- Modelled from the spec: the Token Service (spec section 4.2) is the
jsonwebtoken library, which is not part of src/; src/server.js only calls
jwt.sign at line 153. A token is a signed payload: the embedded identity,
an absolute expiry timestamp, and a signature over both, modelled as the
keyed content itself so that verification against a key can be stated. -/
structure SignedToken where
  identity : Identity
  expiry : Nat
  sig : String × Identity × Nat
deriving DecidableEq, Repr

/-- Modelled from the spec: issue embeds the identity in a payload signed
with the process-wide key, carrying absolute expiry = now + ttl. -/
def issue (ident : Identity) (key : String) (ttl now : Nat) : SignedToken :=
  ⟨ident, now + ttl, (key, ident, now + ttl)⟩

/-- Modelled from the spec: verify fails with InvalidSignature when the
signature does not match the configured key, fails with Expired when now
is past the expiry, and otherwise returns the embedded identity. -/
def verifyToken (t : SignedToken) (key : String) (now : Nat) :
    Except TokenError Identity :=
  if t.sig ≠ (key, t.identity, t.expiry) then
    Except.error TokenError.invalidSignature
  else if t.expiry < now then
    Except.error TokenError.expired
  else
    Except.ok t.identity

/-- Duration denoted by the expiresIn option '10hr' that src/server.js
line 156 passes to jwt.sign: the ms library parses the unit 'hr' as
hours, so the ttl is 10 hours, i.e. 36000 seconds. -/
def tenHoursTtl : Nat := 10 * 60 * 60

/-- Identity that returnToken actually embeds: its payload reads team.id
where team is the module-scope mongoose model import, not the user
argument, and the id property of the model object is undefined. Modelled
as a fixed value standing for that undefined property. -/
def mongooseModelId : Identity := ⟨"undefined"⟩

/-- ReturnToken (src/server.js lines 146-162): builds the payload
team: (id: team.id) — reading the module-scope team import rather than
its user parameter — and signs it with the configured process-wide key
and expiresIn '10hr'. -/
def returnToken (user : Identity) (key : String) (now : Nat) : SignedToken :=
  issue mongooseModelId key tenHoursTtl now

/-- Sample stored post used to instantiate the theorems below. -/
def post1 : Post := ⟨"p1", "t1", "hello", "world", 5⟩

/-- C1: for every post deletion or update request carrying an authorized
identity, a post id that does not resolve is answered with NotFound
(404), a resolving post whose owner differs from the identity is answered
with the Forbidden-class 401, and the concrete delete-as-non-owner
response is 401 with msg 'team not authorized'. -/
theorem post_mutation_access_control (db : List Post) (tid pid : String)
    (title body : Option String) :
    (findPost db pid = none →
      (deletePostHandler db tid pid).1 = HttpResult.msgJson 404 "Post not found" ∧
      (updatePostHandler db tid pid title body).1 =
        HttpResult.msgJson 404 "Post not found") ∧
    (∀ post, findPost db pid = some post → post.team ≠ tid →
      (deletePostHandler db tid pid).1 = HttpResult.msgJson 401 "team not authorized" ∧
      (updatePostHandler db tid pid title body).1 =
        HttpResult.msgJson 401 "User not authorized") := by
  constructor
  · intro h
    simp [deletePostHandler, updatePostHandler, h]
  · intro post h hne
    simp [deletePostHandler, updatePostHandler, h, hne]

/-- Witness for C1 at a concrete store: a missing id answers 404 and a
delete by a non-owner answers 401 'team not authorized'. -/
theorem post_mutation_access_control_witness :
    (deletePostHandler [post1] "t2" "p0").1 = HttpResult.msgJson 404 "Post not found" ∧
    (deletePostHandler [post1] "t2" "p1").1 =
      HttpResult.msgJson 401 "team not authorized" := by
  constructor
  · exact ((post_mutation_access_control [post1] "t2" "p0" none none).1 rfl).1
  · exact ((post_mutation_access_control [post1] "t2" "p1" none none).2
      post1 rfl (by decide)).1

/-- C2 evaluation: the registration handler never creates a credential,
never issues a token and never answers Conflict, because the
temporal-dead-zone ReferenceError at line 61 makes every registration
whose input passes validation answer 500 'Server error' and leave the
store unchanged; in particular the first registration does not create
anything, so the claimed first-success/second-Conflict behaviour fails. -/
theorem register_always_server_error (db : List Team) (name city players : String)
    (hvalid : teamValidationErrors name players = []) :
    registerTeamHandler db name city players =
      (HttpResult.serverError "Server error", db) := by
  simp [registerTeamHandler, hvalid, registerTeamBody]

/-- Witness for C2: registering a valid team on an empty store answers
500 'Server error' instead of creating the credential and returning a
token. -/
theorem register_always_server_error_witness :
    registerTeamHandler [] "Reds" "Springfield" "1111111111111" =
      (HttpResult.serverError "Server error", []) :=
  register_always_server_error [] "Reds" "Springfield" "1111111111111" rfl

/-- C3 evaluation: the login handler answers 500 'Server error' on every
request, because of the temporal-dead-zone ReferenceError at line 122; an
unknown name is therefore not answered with 400 'Invalid team name', a
wrong secret is not answered with 400 'Invalid number of players', and no
token is ever issued. -/
theorem login_always_server_error (db : List Team) (name players : String) :
    loginHandler db name players = HttpResult.serverError "Server error" := rfl

/-- C4 evaluation: registering name Reds with player count 13 does not
pass input validation: the players check isLength(min 13) measures the
string length of '13', which is 2, so the handler answers 422 with the
players error message instead of succeeding with a token. -/
theorem register_reds_13_rejected (db : List Team) :
    registerTeamHandler db "Reds" "Springfield" "13" =
      (HttpResult.errorsJson 422
        ["Please enter number of players, must be at least 13"], db) := rfl

/-- C5: for every non-empty secret, verifying the secret against its own
hash succeeds, and for every pair of distinct secrets, verifying one
against the other's hash fails, whatever salt the hash was made with. -/
theorem hash_compare_roundtrip :
    (∀ s salt : String, s ≠ "" → bcrypt.compare s (bcrypt.hash s salt) = true) ∧
    (∀ s s2 salt : String, s ≠ s2 → bcrypt.compare s (bcrypt.hash s2 salt) = false) := by
  constructor
  · intro s salt _
    simp [bcrypt.compare, bcrypt.hash]
  · intro s s2 salt hne
    simp only [bcrypt.compare, bcrypt.hash, beq_eq_false_iff_ne, ne_eq]
    intro h
    have hd := congrArg String.data h
    rw [String.data_append, String.data_append] at hd
    exact hne (String.ext (List.append_cancel_left hd)).symm

/-- Witness for C5 at concrete secrets and a concrete salt. -/
theorem hash_compare_roundtrip_witness :
    bcrypt.compare "pass1" (bcrypt.hash "pass1" "salty") = true ∧
    bcrypt.compare "pass1" (bcrypt.hash "pass2" "salty") = false :=
  ⟨hash_compare_roundtrip.1 "pass1" "salty" (by decide),
   hash_compare_roundtrip.2 "pass1" "pass2" "salty" (by decide)⟩

/-- C6: verifying a token immediately after it is issued, with the same
process-wide signing key, succeeds and returns the identity embedded in
the payload. -/
theorem verify_after_issue (ident : Identity) (key : String) (ttl now : Nat) :
    verifyToken (issue ident key ttl now) key now = Except.ok ident := by
  have h : ¬ (now + ttl < now) := by omega
  simp [verifyToken, issue, h]

/-- C7: every token issued through returnToken carries an absolute expiry
timestamp equal to the issuance time plus a ttl fixed at 10 hours, which
is 36000 seconds. -/
theorem issued_token_expiry (user : Identity) (key : String) (now : Nat) :
    (returnToken user key now).expiry = now + 36000 ∧ tenHoursTtl = 36000 :=
  ⟨rfl, rfl⟩

/-- C8: an update whose body omits the title (respectively the body)
keeps the stored title (respectively body) unchanged, and the update
never modifies the id, owner or date fields of the post it echoes. -/
theorem update_frame_conditions (db : List Post) (tid pid : String)
    (title body : Option String) (post : Post)
    (hfind : findPost db pid = some post) (hown : post.team = tid) :
    ∃ post', (updatePostHandler db tid pid title body).1 = HttpResult.postJson post' ∧
      (title = none → post'.title = post.title) ∧
      (body = none → post'.body = post.body) ∧
      post'.id = post.id ∧ post'.team = post.team ∧ post'.date = post.date := by
  refine ⟨⟨post.id, post.team, jsOr title post.title, jsOr body post.body, post.date⟩,
    ?_, ?_, ?_, rfl, rfl, rfl⟩
  · simp [updatePostHandler, hfind, hown]
  · intro h
    simp [h, jsOr]
  · intro h
    simp [h, jsOr]

/-- Witness for C8: updating post1 as its owner with the title omitted
echoes a post with the stored title and the original id, owner and date. -/
theorem update_frame_conditions_witness :
    ∃ post', (updatePostHandler [post1] "t1" "p1" none (some "newbody")).1 =
        HttpResult.postJson post' ∧
      (none = (none : Option String) → post'.title = post1.title) ∧
      (some "newbody" = (none : Option String) → post'.body = post1.body) ∧
      post'.id = post1.id ∧ post'.team = post1.team ∧ post'.date = post1.date :=
  update_frame_conditions [post1] "t1" "p1" none (some "newbody") post1 rfl rfl

/-- C9: the not-found check precedes the ownership check in both mutation
handlers: a post id that does not resolve answers 404 for every requester
identity, and a 401 ownership rejection only arises for a post that does
exist and is owned by a different team. -/
theorem notfound_before_ownership (db : List Post) (pid : String)
    (title body : Option String) :
    (findPost db pid = none →
      ∀ tid, (deletePostHandler db tid pid).1 = HttpResult.msgJson 404 "Post not found" ∧
        (updatePostHandler db tid pid title body).1 =
          HttpResult.msgJson 404 "Post not found") ∧
    (∀ tid, (deletePostHandler db tid pid).1 =
        HttpResult.msgJson 401 "team not authorized" →
      ∃ post, findPost db pid = some post ∧ post.team ≠ tid) ∧
    (∀ tid, (updatePostHandler db tid pid title body).1 =
        HttpResult.msgJson 401 "User not authorized" →
      ∃ post, findPost db pid = some post ∧ post.team ≠ tid) := by
  refine ⟨?_, ?_, ?_⟩
  · intro h tid
    simp [deletePostHandler, updatePostHandler, h]
  · intro tid hresp
    cases h : findPost db pid with
    | none => simp [deletePostHandler, h] at hresp
    | some post =>
      by_cases hown : post.team = tid
      · simp [deletePostHandler, h, hown] at hresp
      · exact ⟨post, rfl, hown⟩
  · intro tid hresp
    cases h : findPost db pid with
    | none => simp [updatePostHandler, h] at hresp
    | some post =>
      by_cases hown : post.team = tid
      · simp [updatePostHandler, h, hown] at hresp
      · exact ⟨post, rfl, hown⟩

/-- Witness for C9 at a concrete store: a missing id answers 404 for an
arbitrary identity, and a concrete 401 delete rejection exhibits an
existing post owned by another team. -/
theorem notfound_before_ownership_witness :
    (deletePostHandler [post1] "t9" "p0").1 = HttpResult.msgJson 404 "Post not found" ∧
    ∃ post, findPost [post1] "p1" = some post ∧ post.team ≠ "t3" :=
  ⟨((notfound_before_ownership [post1] "p0" none none).1 rfl "t9").1,
   (notfound_before_ownership [post1] "p1" none none).2.1 "t3" rfl⟩

/-- C10: post reads perform no ownership check: GET /api/posts answers
the same list to every requester, that list holds exactly the stored
posts and is sorted by date descending, and GET /api/posts/:id answers
any existing post to any requester, owner or not. -/
theorem reads_ignore_ownership (db : List Post) :
    (∀ tid1 tid2, getPostsHandler db tid1 = getPostsHandler db tid2) ∧
    (∀ p, p ∈ sortByDateDesc db ↔ p ∈ db) ∧
    List.Pairwise (fun a b => b.date ≤ a.date) (sortByDateDesc db) ∧
    (∀ pid post, findPost db pid = some post →
      ∀ tid, getPostHandler db tid pid = HttpResult.postJson post) := by
  refine ⟨fun _ _ => rfl, fun p => (List.mergeSort_perm db _).mem_iff, ?_, ?_⟩
  · have htrans : ∀ a b c : Post, decide (b.date ≤ a.date) = true →
        decide (c.date ≤ b.date) = true → decide (c.date ≤ a.date) = true := by
      intro a b c hab hbc
      simp only [decide_eq_true_eq] at *
      omega
    have htotal : ∀ a b : Post,
        (decide (b.date ≤ a.date) || decide (a.date ≤ b.date)) = true := by
      intro a b
      simp only [Bool.or_eq_true, decide_eq_true_eq]
      omega
    have h := List.sorted_mergeSort htrans htotal db
    exact h.imp (by intro a b hab; simpa using hab)
  · intro pid post h tid
    simp [getPostHandler, h]

/-- Witness for C10: fetching post1 by id with a token of a team that
does not own it still returns the post. -/
theorem reads_ignore_ownership_witness :
    getPostHandler [post1] "t9" "p1" = HttpResult.postJson post1 :=
  (reads_ignore_ownership [post1]).2.2.2 "p1" post1 rfl "t9"

end Server
